import Mathlib

/-!
Verification of the farmer-core bootstrap configuration program
(katubaya-solana). The Rust source under programs/farmer-core/src is
embedded shallowly: public keys are opaque identities, the instruction
handler is a pure function over the account it mutates, and the host
ledger is modelled as explicit state passing over the storage slot at
the derived singleton address.
-/

/-- Opaque 32-byte public key identity. The claims only compare keys
for equality, so the embedding treats a key as an opaque value. -/
structure Pubkey where
  key : Nat
deriving DecidableEq, Repr

/-- Constant MAX_ALLOWED_MINTS from states.rs. -/
def MAX_ALLOWED_MINTS : Nat := 50

/-- Byte sequence of a string constant, as written b"..." in Rust. -/
def strBytes (s : String) : List Nat :=
  s.data.map Char.toNat

/-- Seed constant SEED_CONFIG from states.rs. -/
def SEED_CONFIG : List Nat := strBytes ("config")

/-- Seed constant SEED_WAREHOUSE from states.rs. -/
def SEED_WAREHOUSE : List Nat := strBytes ("warehouse")

/-- Seed constant SEED_FARMER from states.rs. -/
def SEED_FARMER : List Nat := strBytes ("farmer")

/-- Seed constant SEED_CUSTOMER from states.rs. -/
def SEED_CUSTOMER : List Nat := strBytes ("customer")

/-- Seed constant SEED_WCUSTOMER from states.rs. -/
def SEED_WCUSTOMER : List Nat := strBytes ("wcustomer")

/-- Seed constant SEED_PACK from states.rs. -/
def SEED_PACK : List Nat := strBytes ("pack")

/-- Seed constant SEED_OFFER from states.rs. -/
def SEED_OFFER : List Nat := strBytes ("offer")

/-- Seed constant SEED_ORDER from states.rs. -/
def SEED_ORDER : List Nat := strBytes ("order")

/-- Seed constant SEED_ESCROW from states.rs. -/
def SEED_ESCROW : List Nat := strBytes ("escrow")

/-- Account ProgramConfig from states.rs. -/
structure ProgramConfig where
  admin : Pubkey
  logistics_wallet : Pubkey
  paused : Bool
  allowed_mints : List Pubkey
deriving DecidableEq, Repr

/-- Constant ProgramConfig::SIZE from states.rs: discriminator (8) +
admin (32) + logistics_wallet (32) + paused (1) + the allowed_mints
vector, a 4-byte length marker plus 32 bytes per entry reserved at
full capacity. -/
def ProgramConfig.SIZE : Nat :=
  8 + 32 + 32 + 1 + (4 + 32 * MAX_ALLOWED_MINTS)

/-- Enum ConfigError from errors.rs. -/
inductive ConfigError where
  | TooManyAllowedMints
  | ProgramPaused
  | UnauthorizedAdmin
  | MintNotAllowed
deriving DecidableEq, Repr

/-- Enum CustomerError from errors.rs. -/
inductive CustomerError where
  | CustomerNotFound
deriving DecidableEq, Repr

/-- Handler init_config from instructions/init_config.rs. The config
account, freshly allocated by the host before the handler runs, is
passed in explicitly. The handler first validates the allowlist
length; on failure the require macro returns early, so the account is
returned untouched together with the error. On success the four
fields are written from the inputs, the admin field from the signer
key. -/
def init_config (config : ProgramConfig) (admin_key : Pubkey)
    (logistics_wallet : Pubkey) (paused : Bool)
    (allowed_mints : List Pubkey) : ProgramConfig × Option ConfigError :=
  if allowed_mints.length ≤ MAX_ALLOWED_MINTS then
    ({ config with
        admin := admin_key,
        logistics_wallet := logistics_wallet,
        paused := paused,
        allowed_mints := allowed_mints }, none)
  else
    (config, some ConfigError.TooManyAllowedMints)

namespace farmer_core

/-- Entry point initialize from lib.rs; it forwards its arguments to
init_config unchanged. -/
def initializeEntry (config : ProgramConfig) (admin_key : Pubkey)
    (logistics_wallet : Pubkey) (paused : Bool)
    (allowed_mints : List Pubkey) : ProgramConfig × Option ConfigError :=
  init_config config admin_key logistics_wallet paused allowed_mints

end farmer_core

/-- Error surfaced by a full initialize transaction: either the host
allocation failure or an application-level ConfigError. -/
inductive InitializeError where
  | AlreadyInitialized
  | Config (e : ConfigError)
deriving DecidableEq, Repr

/-- Storage of one deployment at the derived config address: the
stored record when present, and the bytes allocated for it. -/
structure Deployment where
  config : Option ProgramConfig
  allocatedBytes : Option Nat
deriving DecidableEq, Repr

/-- Deployment before any initialize transaction ran. -/
def initialDeployment : Deployment :=
  { config := none, allocatedBytes := none }

/-- Content of the freshly allocated account, zero-initialized by the
host before the handler runs. -/
def freshConfig : ProgramConfig :=
  { admin := ⟨0⟩, logistics_wallet := ⟨0⟩, paused := false,
    allowed_mints := [] }

/-- Modelled from the spec: the host exclusive allocation primitive
and transaction atomicity are external collaborators, not code under
the repository source. Following the spec, allocating the init
account of ProgramConfig::SIZE bytes at the derived singleton address
fails with AlreadyInitialized when the address is already occupied,
and any error aborts the whole transaction with no state change. On
success the record written by init_config becomes durable. -/
def initializeTx (st : Deployment) (admin_key : Pubkey)
    (logistics_wallet : Pubkey) (paused : Bool)
    (allowed_mints : List Pubkey) : Deployment × Option InitializeError :=
  match st.config with
  | some _ => (st, some InitializeError.AlreadyInitialized)
  | none =>
    match farmer_core.initializeEntry freshConfig admin_key logistics_wallet
        paused allowed_mints with
    | (cfg, none) =>
      ({ config := some cfg, allocatedBytes := some ProgramConfig.SIZE },
        none)
    | (_, some e) => (st, some (InitializeError.Config e))

/-- Modelled from the spec: address derivation lives in the host
runtime, not in the repository source. The deterministic hash of
(domain tag, key material, bump) is abstracted as a function that
yields an address when the candidate avoids the key-controllable
space and nothing when it collides; derivation probes bump values
0..255 until one succeeds. -/
def findProgramAddress (hash : List Nat → List Nat → Nat → Option Nat)
    (tag : List Nat) (keyMaterial : List Nat) : Option (Nat × Nat) :=
  (List.range 256).findSome? fun bump =>
    (hash tag keyMaterial bump).map fun addr => (addr, bump)

/-- Deployment states reachable through the in-scope operations: the
fresh deployment, and the result state of any initialize
transaction. -/
inductive Reachable : Deployment → Prop where
  | init : Reachable initialDeployment
  | step (st : Deployment) (a w : Pubkey) (p : Bool) (m : List Pubkey) :
      Reachable st → Reachable (initializeTx st a w p m).1

/-- Concrete hash abstraction used to instantiate derivation
theorems: bump 0 collides, every later bump yields an address. -/
def hashProbe : List Nat → List Nat → Nat → Option Nat :=
  fun _ _ bump => if bump = 0 then none else some (bump + 100)

/-- Claim C1: every call to the initialize entry point with at most 50
allowed mints succeeds and the stored record holds the supplied
inputs verbatim: admin is the signer key, logistics_wallet the
supplied fee wallet, paused the supplied boolean, allowed_mints the
supplied sequence. -/
theorem initialize_stores_inputs_verbatim
    (config : ProgramConfig) (admin_key logistics_wallet : Pubkey)
    (paused : Bool) (allowed_mints : List Pubkey)
    (h : allowed_mints.length ≤ 50) :
    farmer_core.initializeEntry config admin_key logistics_wallet paused
        allowed_mints =
      ({ admin := admin_key, logistics_wallet := logistics_wallet,
         paused := paused, allowed_mints := allowed_mints }, none) := by
  simp [farmer_core.initializeEntry, init_config, MAX_ALLOWED_MINTS, h]

/-- Witness for C1 at a concrete input. -/
theorem initialize_stores_inputs_verbatim_witness :
    ([⟨5⟩] : List Pubkey).length ≤ 50 ∧
    farmer_core.initializeEntry freshConfig ⟨1⟩ ⟨2⟩ true [⟨5⟩] =
      ({ admin := ⟨1⟩, logistics_wallet := ⟨2⟩, paused := true,
         allowed_mints := [⟨5⟩] }, none) :=
  ⟨by decide,
    initialize_stores_inputs_verbatim freshConfig ⟨1⟩ ⟨2⟩ true [⟨5⟩]
      (by decide)⟩

/-- Claim C2: every initialize transaction supplying more than 50 allowed
mints fails with TooManyAllowedMints, the CapacityExceeded error, and
the deployment keeps no storage allocated for the record. -/
theorem initialize_capacity_exceeded
    (admin_key logistics_wallet : Pubkey) (paused : Bool)
    (allowed_mints : List Pubkey) (h : 50 < allowed_mints.length) :
    initializeTx initialDeployment admin_key logistics_wallet paused
        allowed_mints =
      (initialDeployment,
        some (InitializeError.Config ConfigError.TooManyAllowedMints)) ∧
    initialDeployment.config = none ∧
    initialDeployment.allocatedBytes = none := by
  have h' : ¬ allowed_mints.length ≤ MAX_ALLOWED_MINTS := by
    simp only [MAX_ALLOWED_MINTS]; omega
  refine ⟨?_, rfl, rfl⟩
  simp [initializeTx, initialDeployment, farmer_core.initializeEntry,
    init_config, h']

/-- Witness for C2 at a concrete input of 51 entries. -/
theorem initialize_capacity_exceeded_witness :
    50 < (List.replicate 51 (⟨3⟩ : Pubkey)).length ∧
    (initializeTx initialDeployment ⟨1⟩ ⟨2⟩ true
        (List.replicate 51 (⟨3⟩ : Pubkey)) =
      (initialDeployment,
        some (InitializeError.Config ConfigError.TooManyAllowedMints)) ∧
    initialDeployment.config = none ∧
    initialDeployment.allocatedBytes = none) :=
  ⟨by decide,
    initialize_capacity_exceeded ⟨1⟩ ⟨2⟩ true
      (List.replicate 51 (⟨3⟩ : Pubkey)) (by decide)⟩

/-- Claim C3: ProgramConfig::SIZE is the fixed constant 1677 bytes, the sum
of discriminator, admin, fee wallet, paused flag, length marker and
50 times 32 bytes of reserved allowlist capacity, and every
successful creation allocates exactly this many bytes whatever
allowlist was supplied. -/
theorem config_size_constant_allocation
    (admin_key logistics_wallet : Pubkey) (paused : Bool)
    (allowed_mints : List Pubkey) (h : allowed_mints.length ≤ 50) :
    ProgramConfig.SIZE = 1677 ∧
    ProgramConfig.SIZE = 8 + 32 + 32 + 1 + 4 + 50 * 32 ∧
    (initializeTx initialDeployment admin_key logistics_wallet paused
        allowed_mints).1.allocatedBytes = some ProgramConfig.SIZE := by
  have h' : allowed_mints.length ≤ MAX_ALLOWED_MINTS := h
  refine ⟨by decide, by decide, ?_⟩
  simp [initializeTx, initialDeployment, farmer_core.initializeEntry,
    init_config, h']

/-- Witness for C3 at allowlists of 0, 1 and 50 entries. -/
theorem config_size_constant_allocation_witness :
    (ProgramConfig.SIZE = 1677 ∧
      ProgramConfig.SIZE = 8 + 32 + 32 + 1 + 4 + 50 * 32 ∧
      (initializeTx initialDeployment ⟨1⟩ ⟨2⟩ false
          ([] : List Pubkey)).1.allocatedBytes = some ProgramConfig.SIZE) ∧
    (ProgramConfig.SIZE = 1677 ∧
      ProgramConfig.SIZE = 8 + 32 + 32 + 1 + 4 + 50 * 32 ∧
      (initializeTx initialDeployment ⟨1⟩ ⟨2⟩ false
          [⟨4⟩]).1.allocatedBytes = some ProgramConfig.SIZE) ∧
    (ProgramConfig.SIZE = 1677 ∧
      ProgramConfig.SIZE = 8 + 32 + 32 + 1 + 4 + 50 * 32 ∧
      (initializeTx initialDeployment ⟨1⟩ ⟨2⟩ false
          (List.replicate 50 (⟨4⟩ : Pubkey))).1.allocatedBytes =
        some ProgramConfig.SIZE) :=
  ⟨config_size_constant_allocation ⟨1⟩ ⟨2⟩ false [] (by decide),
    config_size_constant_allocation ⟨1⟩ ⟨2⟩ false [⟨4⟩] (by decide),
    config_size_constant_allocation ⟨1⟩ ⟨2⟩ false
      (List.replicate 50 (⟨4⟩ : Pubkey)) (by decide)⟩

/-- Claim C4: after a first successful initialize transaction, a second
transaction against the same deployment fails with
AlreadyInitialized because the derived singleton address is occupied,
leaves the state unchanged, and the stored record keeps exactly the
first call's values. -/
theorem second_initialize_already_initialized
    (a w : Pubkey) (p : Bool) (m : List Pubkey)
    (a2 w2 : Pubkey) (p2 : Bool) (m2 : List Pubkey)
    (h : m.length ≤ 50) :
    initializeTx (initializeTx initialDeployment a w p m).1 a2 w2 p2 m2 =
      ((initializeTx initialDeployment a w p m).1,
        some InitializeError.AlreadyInitialized) ∧
    (initializeTx initialDeployment a w p m).1.config =
      some { admin := a, logistics_wallet := w, paused := p,
             allowed_mints := m } := by
  have h' : m.length ≤ MAX_ALLOWED_MINTS := h
  have hfirst : (initializeTx initialDeployment a w p m).1 =
      Deployment.mk (some (ProgramConfig.mk a w p m))
        (some ProgramConfig.SIZE) := by
    simp [initializeTx, initialDeployment, farmer_core.initializeEntry,
      init_config, h']
  rw [hfirst]
  exact ⟨rfl, rfl⟩

/-- Witness for C4 at concrete first and second calls. -/
theorem second_initialize_already_initialized_witness :
    ([⟨9⟩] : List Pubkey).length ≤ 50 ∧
    (initializeTx (initializeTx initialDeployment ⟨1⟩ ⟨2⟩ false [⟨9⟩]).1
        ⟨7⟩ ⟨8⟩ true [] =
      ((initializeTx initialDeployment ⟨1⟩ ⟨2⟩ false [⟨9⟩]).1,
        some InitializeError.AlreadyInitialized) ∧
    (initializeTx initialDeployment ⟨1⟩ ⟨2⟩ false [⟨9⟩]).1.config =
      some { admin := ⟨1⟩, logistics_wallet := ⟨2⟩, paused := false,
             allowed_mints := [⟨9⟩] }) :=
  ⟨by decide,
    second_initialize_already_initialized ⟨1⟩ ⟨2⟩ false [⟨9⟩] ⟨7⟩ ⟨8⟩ true []
      (by decide)⟩

/-- Claim C5: address derivation for the configuration record is
deterministic; two derivations with domain tag config and empty key
material yield the identical address and bump value. -/
theorem config_address_derivation_deterministic
    (hash : List Nat → List Nat → Nat → Option Nat)
    (r1 r2 : Option (Nat × Nat))
    (h1 : r1 = findProgramAddress hash SEED_CONFIG [])
    (h2 : r2 = findProgramAddress hash SEED_CONFIG []) :
    r1 = r2 := by
  rw [h1, h2]

/-- Witness for C5: two derivations under the concrete hash
abstraction agree, and the common value is address 101 with bump 1. -/
theorem config_address_derivation_deterministic_witness :
    findProgramAddress hashProbe SEED_CONFIG [] =
      findProgramAddress hashProbe SEED_CONFIG [] ∧
    findProgramAddress hashProbe SEED_CONFIG [] = some (101, 1) :=
  ⟨config_address_derivation_deterministic hashProbe
      (findProgramAddress hashProbe SEED_CONFIG [])
      (findProgramAddress hashProbe SEED_CONFIG []) rfl rfl,
    by decide⟩

/-- Claim C6: in every deployment state reachable through the in-scope
operations, the stored record, when present, satisfies the bound
allowed_mints.length at most MAX_ALLOWED_MINTS; the one mutating
operation establishes and preserves it. -/
theorem reachable_allowlist_bounded
    (st : Deployment) (h : Reachable st)
    (cfg : ProgramConfig) (hc : st.config = some cfg) :
    cfg.allowed_mints.length ≤ MAX_ALLOWED_MINTS := by
  induction h generalizing cfg with
  | init => simp [initialDeployment] at hc
  | step s a w p m hr ih =>
    by_cases hs : s.config = none
    · by_cases hm : m.length ≤ MAX_ALLOWED_MINTS
      · simp [initializeTx, hs, farmer_core.initializeEntry, init_config,
          hm] at hc
        subst hc
        exact hm
      · simp [initializeTx, hs, farmer_core.initializeEntry, init_config,
          hm] at hc
    · obtain ⟨c, hcs⟩ := Option.ne_none_iff_exists.mp hs
      simp [initializeTx, hcs.symm] at hc
      exact ih cfg (by rw [hcs.symm, hc])

/-- Witness for C6 at a state reached by one successful initialize. -/
theorem reachable_allowlist_bounded_witness :
    (ProgramConfig.mk ⟨1⟩ ⟨2⟩ false [⟨3⟩]).allowed_mints.length ≤
      MAX_ALLOWED_MINTS :=
  reachable_allowlist_bounded
    (initializeTx initialDeployment ⟨1⟩ ⟨2⟩ false [⟨3⟩]).1
    (Reachable.step initialDeployment ⟨1⟩ ⟨2⟩ false [⟨3⟩] Reachable.init)
    (ProgramConfig.mk ⟨1⟩ ⟨2⟩ false [⟨3⟩]) (by decide)

/-- Claim C7: a validation failure of init_config aborts with no partial
state change: whenever the handler reports an error, the config
account it returns is exactly the account it received; none of the
four fields was written. -/
theorem init_config_error_no_partial_write
    (config : ProgramConfig) (admin_key logistics_wallet : Pubkey)
    (paused : Bool) (allowed_mints : List Pubkey) (e : ConfigError)
    (h : (init_config config admin_key logistics_wallet paused
        allowed_mints).2 = some e) :
    (init_config config admin_key logistics_wallet paused
        allowed_mints).1 = config := by
  by_cases hm : allowed_mints.length ≤ MAX_ALLOWED_MINTS
  · simp [init_config, hm] at h
  · simp [init_config, hm]

/-- Witness for C7 at a failing input of 51 entries. -/
theorem init_config_error_no_partial_write_witness :
    (init_config freshConfig ⟨1⟩ ⟨2⟩ false
        (List.replicate 51 (⟨3⟩ : Pubkey))).2 =
      some ConfigError.TooManyAllowedMints ∧
    (init_config freshConfig ⟨1⟩ ⟨2⟩ false
        (List.replicate 51 (⟨3⟩ : Pubkey))).1 = freshConfig :=
  ⟨by decide,
    init_config_error_no_partial_write freshConfig ⟨1⟩ ⟨2⟩ false
      (List.replicate 51 (⟨3⟩ : Pubkey)) ConfigError.TooManyAllowedMints
      (by decide)⟩

/-- Claim C8: the fee wallet and the allowlist token identifiers are
accepted as opaque values with no existence, format or duplicate
checking: for every allowlist of length at most 50, duplicates
included, and every fee wallet value, creation succeeds and the
allowlist is stored as supplied with insertion order preserved. -/
theorem init_config_opaque_inputs
    (config : ProgramConfig) (admin_key logistics_wallet : Pubkey)
    (paused : Bool) (allowed_mints : List Pubkey)
    (h : allowed_mints.length ≤ 50) :
    init_config config admin_key logistics_wallet paused allowed_mints =
      ({ admin := admin_key, logistics_wallet := logistics_wallet,
         paused := paused, allowed_mints := allowed_mints }, none) := by
  simp [init_config, MAX_ALLOWED_MINTS, h]

/-- Witness for C8 at an allowlist holding a duplicate identifier. -/
theorem init_config_opaque_inputs_witness :
    ([⟨7⟩, ⟨7⟩, ⟨9⟩] : List Pubkey).length ≤ 50 ∧
    init_config freshConfig ⟨1⟩ ⟨2⟩ false [⟨7⟩, ⟨7⟩, ⟨9⟩] =
      ({ admin := ⟨1⟩, logistics_wallet := ⟨2⟩, paused := false,
         allowed_mints := [⟨7⟩, ⟨7⟩, ⟨9⟩] }, none) :=
  ⟨by decide,
    init_config_opaque_inputs freshConfig ⟨1⟩ ⟨2⟩ false [⟨7⟩, ⟨7⟩, ⟨9⟩]
      (by decide)⟩

/-- Claim C9: the nine reserved domain tags are pairwise distinct byte
strings, so no two entity kinds share a seed tag. -/
theorem seed_tags_pairwise_distinct :
    List.Pairwise (fun s t => s ≠ t)
      [SEED_CONFIG, SEED_WAREHOUSE, SEED_FARMER, SEED_CUSTOMER,
       SEED_WCUSTOMER, SEED_PACK, SEED_OFFER, SEED_ORDER, SEED_ESCROW] := by
  decide

/-- Claim C10: init_config either succeeds or fails with
TooManyAllowedMints; no other ConfigError variant is ever returned,
and the paused input value never causes a failure. -/
theorem init_config_only_capacity_error
    (config : ProgramConfig) (admin_key logistics_wallet : Pubkey)
    (paused : Bool) (allowed_mints : List Pubkey) :
    ((init_config config admin_key logistics_wallet paused
        allowed_mints).2 = none ∨
      (init_config config admin_key logistics_wallet paused
        allowed_mints).2 = some ConfigError.TooManyAllowedMints) ∧
    (init_config config admin_key logistics_wallet true
        allowed_mints).2 =
      (init_config config admin_key logistics_wallet false
        allowed_mints).2 := by
  by_cases hm : allowed_mints.length ≤ MAX_ALLOWED_MINTS <;>
    simp [init_config, hm]
